import Mathlib

/-!
Verification development for the GPT supervised fine-tuning dataset pipeline
(`nemo/collections/nlp/data/language_modeling/megatron/gpt_sft_dataset.py`).

The Python class `GPTSFTDataset` is shallowly embedded here.  Pure methods
become Lean functions; methods that can raise return `Except PyErr`.  Two of
the methods reference names that are never bound at runtime:

* `_separate_template` (lines 200, 204) and the metadata construction
  (line 345) read `self.context_key`, but `__init__` only ever assigns
  `self.context_keys` (line 88), so the attribute access raises
  `AttributeError`;
* `_process_example` (line 334) reads the local variable `label_ids`, but the
  call at line 312 binds the result of `_multiple_truncation` to
  `answer_ids`, so the read raises `NameError`;
* `_multiple_truncation` (line 287) calls `random.randint`, but the module
  never imports `random`, so the `random` truncation method raises
  `NameError`.

The faithful embeddings reproduce those failures exactly.  Alongside them,
definitions suffixed `Core` / `Intended` give the same code with each
undefined name replaced by its evident referent (the referent named by the
binding at the call site respectively by `__init__`); they are used to show
which claims describe the evident intent of the code.
-/

/-- Python exceptions that the embedded code can raise. -/
inductive PyErr where
  | attributeError (name : String)
  | nameError (name : String)
  | keyError (name : String)
  | indexError (msg : String)
  | assertionError (msg : String)
  | valueError (msg : String)
  deriving DecidableEq, Repr

/-- The immutable configuration set up by `GPTSFTDataset.__init__`
(lines 78-96).  `context_keys` and `truncation_fields` are already split on
commas, and `prompt_template` already has escape sequences decoded
(line 101). -/
structure Config where
  max_seq_length : Nat
  add_bos : Bool
  add_eos : Bool
  add_sep : Bool
  sep_id : Int
  context_keys : List String
  label_key : String
  answer_only_loss : Bool
  truncation_fields : List String
  prompt_template : String
  virtual_tokens : Nat
  tokens_to_generate : Nat
  truncation_method : String

/-- The tokenizer contract consumed by the dataset: `text_to_ids`, the
`space_sensitive` capability flag, and the special token ids. -/
structure Tokenizer where
  text_to_ids : String → List Int
  space_sensitive : Bool
  bos_id : Int
  eos_id : Int

/-- The dictionary built at the end of `_process_example` (lines 347-354).
The `metadata` entry is omitted: it is dead code in the source (the
`NameError` at line 334 aborts every call before line 345, which itself
reads the unbound attribute `self.context_key`). -/
structure Processed where
  input_ids : List Int
  answer_start_idx : Nat
  context_ids : List Int
  context_length : Nat
  answer_ids : List Int
  deriving DecidableEq, Repr

/-- Decidable equality of `Except` results, so concrete runs of the
embedded code can be checked by `decide`. -/
instance {ε α : Type} [DecidableEq ε] [DecidableEq α] : DecidableEq (Except ε α) := fun x y =>
  match x, y with
  | Except.ok a, Except.ok b =>
    if h : a = b then isTrue (by rw [h]) else isFalse (by intro hh; injection hh; contradiction)
  | Except.error a, Except.error b =>
    if h : a = b then isTrue (by rw [h]) else isFalse (by intro hh; injection hh; contradiction)
  | Except.ok _, Except.error _ => isFalse (by intro hh; exact Except.noConfusion hh)
  | Except.error _, Except.ok _ => isFalse (by intro hh; exact Except.noConfusion hh)

/-- Python bool-to-int coercion, as used in the `total_ids` sum
(lines 264-266). -/
def b2n (b : Bool) : Nat := if b then 1 else 0

/-- Total number of token ids over a list of per-segment id lists. -/
def sumLens (l : List (List Int)) : Nat := (l.map List.length).sum

/-- Python `str.strip of spaces` on a character list. -/
def trimChars (l : List Char) : List Char :=
  ((l.dropWhile (fun c => c == ' ')).reverse.dropWhile (fun c => c == ' ')).reverse

/-- Python `s.strip` with a space argument. -/
def stripSpaces (s : String) : String := String.mk (trimChars s.toList)

/-- First index of `pat` as a contiguous sublist of the second argument,
Python `str.find` semantics (`none` when absent). -/
def strIndex (pat : List Char) : List Char → Option Nat
  | [] => if pat.isEmpty then some 0 else none
  | c :: rest =>
    if pat.isPrefixOf (c :: rest) then some 0 else (strIndex pat rest).map (fun n => n + 1)

/-- Python `str.index`: like `strIndex` but raising `ValueError` when the
substring is absent. -/
def pyIndex (pat l : List Char) : Except PyErr Nat :=
  match strIndex pat l with
  | some j => Except.ok j
  | none => Except.error (PyErr.valueError "substring not found")

/-- Python string indexing `s[i]` with negative-index wraparound and
`IndexError` when out of range. -/
def pyCharAt (l : List Char) (i : Int) : Except PyErr Char :=
  let j : Int := if i < 0 then i + l.length else i
  if j < 0 then Except.error (PyErr.indexError "string index out of range")
  else
    match l.get? j.toNat with
    | some c => Except.ok c
    | none => Except.error (PyErr.indexError "string index out of range")

/-- Python `dict(zip(ks, vs)).get(k, dflt)`: later duplicate keys override
earlier ones, hence the lookup on the reversed pair list. -/
def pyDictGet (pairs : List (String × String)) (k : String) (dflt : String) : String :=
  match List.lookup k pairs.reverse with
  | some v => v
  | none => dflt

/-- Opening brace character. -/
def lcb : Char := Char.ofNat 123

/-- Closing brace character. -/
def rcb : Char := Char.ofNat 125

/-- Placeholder string for a field name, Python `f-string` of the key wrapped
in braces (line 200: braces around the key). -/
def phOf (k : String) : String := String.mk (lcb :: (k.toList ++ [rcb]))

/-- Insert into a sorted list of naturals. -/
def insertNat (a : Nat) : List Nat → List Nat
  | [] => [a]
  | b :: l => if a ≤ b then a :: b :: l else b :: insertNat a l

/-- Python `sorted` on a list of naturals (insertion sort). -/
def sortNat : List Nat → List Nat
  | [] => []
  | a :: l => insertNat a (sortNat l)

/-- Python `list.pop` from the end of the list, raising `IndexError` on an
empty list (line 284). -/
def popLast : List Nat → Except PyErr (Nat × List Nat)
  | [] => Except.error (PyErr.indexError "pop from empty list")
  | [a] => Except.ok (a, [])
  | a :: b :: r =>
    match popLast (b :: r) with
    | Except.ok (t, rest) => Except.ok (t, a :: rest)
    | Except.error e => Except.error e

/-- The `ids_offset` computation of `_multiple_truncation` (lines 286-293).
The `random` branch raises `NameError` because the module never imports
`random` (line 287); unrecognized methods raise `ValueError` (line 293). -/
def sliceOffset (method : String) (t : Nat) : Except PyErr Nat :=
  if method = "random" then Except.error (PyErr.nameError "random")
  else if method = "left" then Except.ok t
  else if method = "right" then Except.ok 0
  else Except.error (PyErr.valueError method)

/-- The allocation list of `_multiple_truncation` (lines 277-280):
`[total // n + (1 if i < total % n else 0) for i in range(n) reversed]`. -/
def truncationLengthList (d n : Nat) : List Nat :=
  ((List.range n).reverse).map (fun i => d / n + if i < d % n then 1 else 0)

/-- The allocation amounts in the order the loop of lines 282-296 consumes
them: the k-th truncatable context segment (in template order) pops the k-th
entry of this list, because `list.pop` takes from the end of
`truncation_length_list`. -/
def popOrder (d n : Nat) : List Nat := (truncationLengthList d n).reverse

/-- The per-segment truncation loop of `_multiple_truncation`
(lines 282-296): segments whose key is among `truncation_fields` pop an
allocation amount from the end of the list, assert they are long enough, and
are sliced according to `truncation_method`. -/
def truncateLoop (cfg : Config) : List Nat → List (List Int × String) → Except PyErr (List (List Int))
  | _, [] => Except.ok []
  | alloc, (ids, key) :: rest =>
    if key ∈ cfg.truncation_fields then
      match popLast alloc with
      | Except.error e => Except.error e
      | Except.ok (t, alloc2) =>
        if ids.length < t then
          Except.error (PyErr.assertionError "field is not long enough to truncate")
        else
          match sliceOffset cfg.truncation_method t with
          | Except.error e => Except.error e
          | Except.ok off =>
            match truncateLoop cfg alloc2 rest with
            | Except.error e => Except.error e
            | Except.ok rest2 => Except.ok (((ids.drop off).take (ids.length - t)) :: rest2)
    else
      match truncateLoop cfg alloc rest with
      | Except.error e => Except.error e
      | Except.ok rest2 => Except.ok (ids :: rest2)

/-- The `total_ids` budget of `_multiple_truncation` (lines 260-267):
virtual tokens, context ids, label length or `tokens_to_generate` (whichever
is larger), and one-token allowances for BOS, SEP and EOS.  Note line 266
adds `add_eos` unconditionally. -/
def totalIds (cfg : Config) (prompt_ids : List (List Int)) : Nat :=
  cfg.virtual_tokens + sumLens prompt_ids.dropLast
    + max (prompt_ids.getLastD []).length cfg.tokens_to_generate
    + b2n cfg.add_bos + b2n cfg.add_sep + b2n cfg.add_eos

/-- `_multiple_truncation` (lines 247-299): split off the label ids
(`prompt_ids` last element, an `IndexError` on an empty list), compute
`total_ids`, truncate the context segments when the budget is exceeded, and
return the flattened context ids together with the untouched label ids.
The branch binds `label_ids` to the last element, so the `total_ids` of
lines 260-267 is written as `totalIds`, which reads the same last
element. -/
def multipleTruncation (cfg : Config) (prompt_ids : List (List Int)) (prompt_keys : List String) : Except PyErr (List Int × List Int) :=
  match prompt_ids.getLast? with
  | none => Except.error (PyErr.indexError "list index out of range")
  | some label_ids =>
    let context_ids := prompt_ids.dropLast
    let total_ids := totalIds cfg prompt_ids
    let res :=
      if total_ids > cfg.max_seq_length then
        let pairs := context_ids.zip prompt_keys.dropLast
        match truncateLoop cfg
            (truncationLengthList (total_ids - cfg.max_seq_length) cfg.truncation_fields.length)
            pairs with
        | Except.error e => Except.error e
        | Except.ok tr => Except.ok (tr ++ context_ids.drop pairs.length)
      else Except.ok context_ids
    match res with
    | Except.error e => Except.error e
    | Except.ok new_ctx => Except.ok (new_ctx.flatten, label_ids)

/-- Reading `self.context_key` (lines 200, 204, 345): `__init__` only ever
assigns `self.context_keys` (line 88), so this attribute access raises
`AttributeError` on every call. -/
def contextKeyAttr : Except PyErr (List String) :=
  Except.error (PyErr.attributeError "context_key")

/-- The bucket loop of `_separate_template` (lines 222-239): for each
half-open position bucket, compute the leading-space flag (line 230-233,
with Python short-circuit evaluation of the `or`), resolve the bucket to a
field string or the literal template substring, strip spaces, and keep the
bucket when non-empty. -/
def bucketLoop (sp : Bool) (tl : List Char) (phS phK : List (String × String)) : Nat → List (Nat × Nat) → Except PyErr (List String × List String)
  | _, [] => Except.ok ([], [])
  | i, (pi, pj) :: rest =>
    match (if i != 0 && sp then
            match pyCharAt tl ((pi : Int) - 1) with
            | Except.error e => Except.error e
            | Except.ok c1 =>
              if c1 == ' ' then Except.ok true
              else
                match pyCharAt tl (pi : Int) with
                | Except.error e => Except.error e
                | Except.ok c2 => Except.ok (c2 == ' ')
          else Except.ok false) with
    | Except.error e => Except.error e
    | Except.ok lead =>
      let sub := String.mk ((tl.drop pi).take (pj - pi))
      let cs := stripSpaces (pyDictGet phS sub sub)
      match bucketLoop sp tl phS phK (i + 1) rest with
      | Except.error e => Except.error e
      | Except.ok (restS, restK) =>
        if cs.length > 0 then
          Except.ok ((if lead then " " ++ cs else cs) :: restS,
                     pyDictGet phK sub "<template>" :: restK)
        else Except.ok (restS, restK)

/-- The body of `_separate_template` (lines 196-245) parameterized by the
list the loop at line 200 iterates (the method reads it from the unbound
attribute `self.context_key`; per the docstring of lines 187-194 its evident
referent is the list of context keys assigned at line 88).  Checks the
placeholders, collects and sorts the placeholder boundary positions, runs
the bucket loop, and finally appends the (unstripped) label segment with its
own leading-space restoration (lines 241-243). -/
def separateTemplateCore (context_key : List String) (label_key : String) (prompt_template : String) (sp : Bool) (contexts : List String) (label : String) : Except PyErr (List String × List String) :=
  let tl := prompt_template.toList
  let context_phs := context_key.map phOf
  match context_phs.mapM (fun cph =>
      match strIndex cph.toList tl with
      | some _ => (Except.ok () : Except PyErr Unit)
      | none => Except.error (PyErr.assertionError "context placeholder must in prompt_template")) with
  | Except.error e => Except.error e
  | Except.ok _ =>
    let phS := context_phs.zip contexts
    let phK := context_phs.zip context_key
    let label_ph := phOf label_key
    match strIndex label_ph.toList tl with
    | none => Except.error (PyErr.assertionError "label placeholder must in prompt_template")
    | some lidx =>
      if lidx ≠ tl.length - label_ph.toList.length then
        Except.error (PyErr.assertionError "label placeholder must be at the end of prompt_template")
      else
        match context_phs.mapM (fun cph =>
            match pyIndex cph.toList tl with
            | Except.error e => Except.error e
            | Except.ok j => Except.ok [j, j + cph.toList.length]) with
        | Except.error e => Except.error e
        | Except.ok posPairs =>
          let positions := sortNat (0 :: (posPairs.flatten ++ [lidx]))
          let pairs := positions.zip positions.tail
          match bucketLoop sp tl phS phK 0 pairs with
          | Except.error e => Except.error e
          | Except.ok (ps, pk) =>
            let pjF := positions.getLastD 0
            match (if sp then
                    match pyCharAt tl ((pjF : Int) - 1) with
                    | Except.error e => Except.error e
                    | Except.ok c => Except.ok (c == ' ')
                  else Except.ok false) with
            | Except.error e => Except.error e
            | Except.ok lead =>
              Except.ok (ps ++ [if lead then " " ++ label else label], pk ++ [label_key])

/-- `_separate_template` as written: line 200 reads the unbound attribute
`self.context_key`, so every call raises `AttributeError` before any other
work happens. -/
def separateTemplate (cfg : Config) (sp : Bool) (contexts : List String) (label : String) : Except PyErr (List String × List String) :=
  match contextKeyAttr with
  | Except.error e => Except.error e
  | Except.ok ck => separateTemplateCore ck cfg.label_key cfg.prompt_template sp contexts label

/-- The assembly steps of `_process_example` (lines 314-342), parameterized
by the context ids returned by the truncation, the `answer_ids` stored in
the result dictionary (line 352), and the `label_ids` appended at line 334:
prepend virtual-token placeholders, record the answer start index, insert
BOS and SEP while bumping the index, append the label ids and optionally
EOS, and finally hard-clamp the input to `max_seq_length` (lines 340-342;
the clamp does not adjust `answer_start_idx`). -/
def assemble (cfg : Config) (eosId bosId : Int) (ctx0 answer_ids label_ids : List Int) : Processed :=
  let context_ids := if cfg.virtual_tokens ≠ 0 then List.replicate cfg.virtual_tokens eosId ++ ctx0 else ctx0
  let input_ids := context_ids
  let answer_start_idx := input_ids.length
  let context_ids := if cfg.add_bos then bosId :: context_ids else context_ids
  let input_ids := if cfg.add_bos then bosId :: input_ids else input_ids
  let answer_start_idx := if cfg.add_bos then answer_start_idx + 1 else answer_start_idx
  let context_ids := if cfg.add_sep then context_ids ++ [cfg.sep_id] else context_ids
  let input_ids := if cfg.add_sep then input_ids ++ [cfg.sep_id] else input_ids
  let answer_start_idx := if cfg.add_sep then answer_start_idx + 1 else answer_start_idx
  let input_ids := input_ids ++ label_ids
  let input_ids := if cfg.add_eos then input_ids ++ [eosId] else input_ids
  let input_ids := if input_ids.length > cfg.max_seq_length then input_ids.take cfg.max_seq_length else input_ids
  { input_ids := input_ids
    answer_start_idx := answer_start_idx
    context_ids := context_ids
    context_length := context_ids.length
    answer_ids := answer_ids }

/-- Python `example[k]` on the per-record JSON object. -/
def pyGet (record : List (String × String)) (k : String) : Except PyErr String :=
  match List.lookup k record with
  | some v => Except.ok v
  | none => Except.error (PyErr.keyError k)

/-- `_process_example` as written (lines 301-356): strip the context field
values, run the template splitter (which raises `AttributeError` at
line 200), tokenize, truncate, assemble, and read the unbound local
`label_ids` (line 334, a `NameError`: line 312 binds the truncation result
to `answer_ids`) followed by the unbound attribute `self.context_key`
(line 345). -/
def processExample (cfg : Config) (tok : Tokenizer) (record : List (String × String)) : Except PyErr Processed := do
  let contexts ← cfg.context_keys.mapM (fun c => do
    let v ← pyGet record c
    pure (stripSpaces v))
  let label ← pyGet record cfg.label_key
  let r ← separateTemplate cfg tok.space_sensitive contexts label
  let prompt_ids := r.1.map tok.text_to_ids
  let tr ← multipleTruncation cfg prompt_ids r.2
  let label_ids ← (Except.error (PyErr.nameError "label_ids") : Except PyErr (List Int))
  let _ ← contextKeyAttr
  pure (assemble cfg tok.eos_id tok.bos_id tr.1 tr.2 label_ids)

/-- `_process_example` with the two undefined names replaced by their evident
referents: the splitter iterates `self.context_keys` (the attribute
`__init__` assigns at line 88) and line 334 appends the ids bound as
`answer_ids` at line 312. -/
def processExampleIntended (cfg : Config) (tok : Tokenizer) (record : List (String × String)) : Except PyErr Processed := do
  let contexts ← cfg.context_keys.mapM (fun c => do
    let v ← pyGet record c
    pure (stripSpaces v))
  let label ← pyGet record cfg.label_key
  let r ← separateTemplateCore cfg.context_keys cfg.label_key cfg.prompt_template tok.space_sensitive contexts label
  let prompt_ids := r.1.map tok.text_to_ids
  let tr ← multipleTruncation cfg prompt_ids r.2
  pure (assemble cfg tok.eos_id tok.bos_id tr.1 tr.2 tr.2)

/-- The validation performed by `__init__` (lines 97-113): the
`prompt_template` presence assertion, the legacy-checkpoint remapping of
`truncation_fields` when it is exactly the pair of `context` over `input`
(lines 103-110), and the subset assertion (lines 111-113).  Returns the
effective truncation fields.  Nothing else is validated at construction:
in particular `truncation_method` and the placeholder structure of the
template are not inspected here. -/
def initChecks (prompt_template : Option String) (context_keys truncation_fields : List String) : Except PyErr (List String) :=
  match prompt_template with
  | none => Except.error (PyErr.assertionError "we need prompt_template")
  | some _ =>
    let tf :=
      if truncation_fields.length = 1 ∧ context_keys.length = 1
          ∧ context_keys.headD "" = "input" ∧ truncation_fields.headD "" = "context" then
        [context_keys.headD ""]
      else truncation_fields
    if tf.all (fun f => decide (f ∈ context_keys)) then Except.ok tf
    else Except.error (PyErr.assertionError "truncation_fields must in context_keys")

/-- `_build_loss_mask` (lines 373-382): position `idx` carries `1.0` when
`answer_only_loss` is off or `idx` is at or past `answer_start_idx`. -/
def buildLossMask (answer_only_loss : Bool) (answer_start_idx : Nat) (input_ids : List Int) : List ℚ :=
  if answer_only_loss then
    (List.range input_ids.length).map (fun idx => if answer_start_idx ≤ idx then (1 : ℚ) else 0)
  else List.replicate input_ids.length (1 : ℚ)

/-- Number of `1.0` entries in a loss mask. -/
def onesCount (l : List ℚ) : Nat := l.countP (fun x => decide (x = 1))

/-- A tokenizer mapping every character to its code point, used for concrete
runs of the pipeline. -/
def charTok : Tokenizer :=
  { text_to_ids := fun s => s.toList.map (fun c => (c.toNat : Int))
    space_sensitive := false
    bos_id := -1
    eos_id := -2 }

/-- Configuration for the spec scenario of the template splitter: template
with `context` and `question` placeholders and trailing `answer` label. -/
def cfg9 : Config :=
  { max_seq_length := 100, add_bos := false, add_eos := true, add_sep := false
    sep_id := 0, context_keys := ["context", "question"], label_key := "answer"
    answer_only_loss := true, truncation_fields := ["context"]
    prompt_template := "Context: {context} Question: {question} Answer: {answer}"
    virtual_tokens := 0, tokens_to_generate := 0, truncation_method := "right" }

/-- The record of the template splitting scenario. -/
def ex9 : List (String × String) :=
  [("context", "Paris is the capital."), ("question", "What is the capital?"), ("answer", "Paris")]

/-- Configuration with two truncatable fields and a deficit of three: budget
of eight against five-plus-five context tokens and a one-token label. -/
def cfg2 : Config :=
  { max_seq_length := 8, add_bos := false, add_eos := false, add_sep := false
    sep_id := 0, context_keys := ["a", "b"], label_key := "lbl"
    answer_only_loss := true, truncation_fields := ["a", "b"]
    prompt_template := "x", virtual_tokens := 0, tokens_to_generate := 0
    truncation_method := "right" }

/-- Like `cfg2` but with a budget of four, used with a record in which the
truncatable field `b` was dropped as empty by the template splitter. -/
def cfg3 : Config := { cfg2 with max_seq_length := 4 }

/-- Configuration with `add_eos` enabled and a fixed generation length of
five tokens; the budget of ten holds the five context ids plus the five
generation tokens exactly, leaving no room for the EOS allowance. -/
def cfg5 : Config :=
  { cfg2 with
    max_seq_length := 10,
    add_eos := true,
    tokens_to_generate := 5,
    truncation_fields := ["a"] }

/-- Family of configurations over the requested generation length: the
budget is exactly the five context ids plus the label-or-generation
allowance, so the sequence fits if and only if no EOS allowance is
counted. -/
def cfg5A (ttg : Nat) : Config :=
  { cfg2 with
    max_seq_length := 5 + max 1 ttg,
    add_eos := true,
    tokens_to_generate := ttg,
    truncation_fields := ["a"] }

/-- Configuration whose record drops the empty truncatable field `b` in the
splitter and then needs heavy truncation: budget three against an
eight-character context field and a one-character label. -/
def cfg6 : Config :=
  { max_seq_length := 3, add_bos := false, add_eos := false, add_sep := false
    sep_id := 0, context_keys := ["a", "b"], label_key := "ans"
    answer_only_loss := true, truncation_fields := ["a", "b"]
    prompt_template := "{a}{b}{ans}", virtual_tokens := 0, tokens_to_generate := 0
    truncation_method := "right" }

/-- Record for `cfg6`: the field `b` is empty, so its segment is dropped by
the template splitter. -/
def ex6 : List (String × String) := [("a", "AAAAAAAA"), ("b", ""), ("ans", "X")]

/-- Configuration with an unrecognized truncation method and a template with
no label placeholder, used to show neither fault is caught at
construction. -/
def cfg8 : Config :=
  { max_seq_length := 1, add_bos := false, add_eos := false, add_sep := false
    sep_id := 0, context_keys := ["x"], label_key := "lab"
    answer_only_loss := true, truncation_fields := ["x"]
    prompt_template := "Q {x}", virtual_tokens := 0, tokens_to_generate := 0
    truncation_method := "middle" }

/-- A benign configuration whose budget is never exceeded, for witness
instantiations. -/
def cfgW : Config :=
  { max_seq_length := 100, add_bos := false, add_eos := false, add_sep := false
    sep_id := 0, context_keys := ["a"], label_key := "x"
    answer_only_loss := true, truncation_fields := ["a"]
    prompt_template := "x", virtual_tokens := 0, tokens_to_generate := 0
    truncation_method := "right" }

/-- The example the slip-repaired pipeline produces for `cfg6` on `ex6`:
the hard clamp cuts the thirteen assembled ids down to three while the
answer start index stays at five. -/
def proc6 : Processed :=
  { input_ids := [65, 65, 65], answer_start_idx := 5, context_ids := [65, 65, 65, 65, 65],
    context_length := 5, answer_ids := [88] }

/-- Claim C9: on the spec scenario (template with `context` and `question`
placeholders and trailing `answer`, space-sensitive tokenizer), the template
splitter as written raises `AttributeError` on the unbound `self.context_key`
(line 200), so the claimed segment and key lists are never returned; the same
algorithm reading the context keys that `__init__` actually assigns produces
exactly the claimed segments and keys, matching the docstring of
lines 187-194. -/
theorem C9_template_split_eval :
    separateTemplate cfg9 true ["Paris is the capital.", "What is the capital?"] "Paris"
      = Except.error (PyErr.attributeError "context_key")
    ∧ separateTemplateCore ["context", "question"] "answer" cfg9.prompt_template true
        ["Paris is the capital.", "What is the capital?"] "Paris"
      = Except.ok (["Context:", " Paris is the capital.", " Question:", " What is the capital?", " Answer:", " Paris"],
                   ["<template>", "context", "<template>", "question", "<template>", "answer"]) := by
  refine ⟨rfl, ?_⟩
  decide

/-- Claim C1: `_process_example` never returns an example (the splitter it
calls raises `AttributeError` at line 200, and line 334 reads the unbound
local `label_ids`), shown on a concrete record; the assembly steps of
lines 314-332 themselves compute `answer_start_idx` exactly as the claim
states, `virtual_tokens` plus the truncated context length plus one for BOS
plus one for SEP, under every combination of flags. -/
theorem C1_answer_start_idx :
    processExample cfg9 charTok ex9 = Except.error (PyErr.attributeError "context_key")
    ∧ ∀ (cfg : Config) (eosId bosId : Int) (ctx0 answer_ids label_ids : List Int),
        (assemble cfg eosId bosId ctx0 answer_ids label_ids).answer_start_idx
          = cfg.virtual_tokens + ctx0.length + b2n cfg.add_bos + b2n cfg.add_sep := by
  refine ⟨rfl, ?_⟩
  intro cfg e b ctx ans lbl
  unfold assemble b2n
  by_cases hv : cfg.virtual_tokens ≠ 0 <;>
    by_cases hb : cfg.add_bos <;>
      by_cases hs : cfg.add_sep <;>
        simp [hv, hb, hs] <;> omega

/-- Claim C2 counterexample: with a deficit of three over two truncatable
fields, the field appearing earlier receives the larger amount: the first
field loses two tokens and the second loses one, so the output differs from
the one the claim predicts, in which the later field receives the larger
amount. -/
theorem C2_remainder_direction_counterexample :
    multipleTruncation cfg2 [[1, 2, 3, 4, 5], [6, 7, 8, 9, 10], [99]] ["a", "b", "lbl"]
      = Except.ok ([1, 2, 3, 6, 7, 8, 9], [99])
    ∧ multipleTruncation cfg2 [[1, 2, 3, 4, 5], [6, 7, 8, 9, 10], [99]] ["a", "b", "lbl"]
      ≠ Except.ok ([1, 2, 3, 4, 6, 7, 8], [99])
    ∧ popOrder 3 2 = [2, 1] := by
  refine ⟨by decide, by decide, by decide⟩

/-- Claim C3 counterexample: the allocation list length is the number of
configured truncation fields, but amounts are popped only for fields present
among the segment keys; with truncatable field `b` absent (dropped as empty)
only one of the two allocated amounts is applied, so one token is removed
instead of the deficit of two. -/
theorem C3_dropped_field_counterexample :
    multipleTruncation cfg3 [[1, 2, 3, 4, 5], [9]] ["a", "lbl"] = Except.ok ([1, 2, 3, 4], [9])
    ∧ sumLens [[1, 2, 3, 4, 5]]
      ≠ ([1, 2, 3, 4] : List Int).length + (totalIds cfg3 [[1, 2, 3, 4, 5], [9]] - cfg3.max_seq_length) := by
  refine ⟨by decide, by decide⟩

/-- Claim C4 counterexample: for a three-token input with answer start index
one, the shifted loss mask is two ones (the mask is zero-one-one and the
dropped first element is a zero), not the one predicted by the claimed
formula of length minus one minus the answer start index. -/
theorem C4_loss_mask_count_counterexample :
    onesCount ((buildLossMask true 1 [10, 11, 12]).drop 1)
      ≠ ([10, 11, 12] : List Int).length - 1 - 1 := by decide

/-- Claim C5 counterexample: with `add_eos` set and a fixed generation
length of five, the budget of ten exactly fits the five context ids plus the
five generation tokens, yet a token is truncated, because line 266 counts
the one-token EOS allowance unconditionally. -/
theorem C5_eos_allowance_counterexample :
    multipleTruncation cfg5 [[1, 2, 3, 4, 5], [9]] ["a", "x"] = Except.ok ([1, 2, 3, 4], [9])
    ∧ multipleTruncation cfg5 [[1, 2, 3, 4, 5], [9]] ["a", "x"]
      ≠ Except.ok (([[1, 2, 3, 4, 5]] : List (List Int)).flatten, [9]) := by
  refine ⟨by decide, by decide⟩

/-- Claim C6 counterexample: a record that needs the last-resort clamp is
not returned at all; `_process_example` raises `AttributeError` on the
unbound `self.context_key` before any example is assembled. -/
theorem C6_no_example_returned_counterexample :
    processExample cfg6 charTok ex6 = Except.error (PyErr.attributeError "context_key") := rfl

/-- Claim C8 counterexample: a dataset whose truncation method is the
unrecognized string `middle` and whose template has no label placeholder
passes every construction-time check; the method fault surfaces only inside
`_multiple_truncation` when an amount is applied, and the label-placeholder
fault lives in the per-record splitter. -/
theorem C8_construction_time_counterexample :
    initChecks (some cfg8.prompt_template) cfg8.context_keys cfg8.truncation_fields = Except.ok ["x"]
    ∧ multipleTruncation cfg8 [[1, 2], [9]] ["x", "lab"] = Except.error (PyErr.valueError "middle")
    ∧ separateTemplateCore cfg8.context_keys cfg8.label_key cfg8.prompt_template false ["v"] "w"
      = Except.error (PyErr.assertionError "label placeholder must in prompt_template") := by
  refine ⟨by decide, by decide, by decide⟩

/-- Claim C7: whenever `_multiple_truncation` returns, the label id list it
returns is exactly the last element of the input per-segment id lists; the
loop of lines 282-296 rewrites only context segments. -/
theorem C7_label_untouched :
    ∀ (cfg : Config) (pids : List (List Int)) (pkeys : List String) (out : List Int × List Int),
      multipleTruncation cfg pids pkeys = Except.ok out → pids.getLast? = some out.2 := by
  intro cfg pids pkeys out h
  unfold multipleTruncation at h
  cases hl : pids.getLast? with
  | none => rw [hl] at h; exact absurd h (by simp)
  | some l =>
    rw [hl] at h
    dsimp only at h
    split at h
    · exact absurd h (by simp)
    · rename_i heq
      injection h with h2
      rw [← h2]

/-- Claim C7 witness: a concrete run returning successfully, whose label
output is the last input segment. -/
theorem C7_label_untouched_witness :
    ([[1], [2]] : List (List Int)).getLast? = some ((([1], [2]) : List Int × List Int)).2 :=
  C7_label_untouched cfgW [[1], [2]] ["a", "x"] ([1], [2]) (by decide)

/-- Claim C10: when the configured truncation fields are not a subset of the
context keys, construction succeeds exactly for the legacy configuration of
context keys `input` with truncation field `context`, and in that case the
effective truncation field list is rewritten to `input`. -/
theorem C10_legacy_remap :
    ∀ (tmpl : String) (ck tf : List String),
      ¬ (tf.all (fun f => decide (f ∈ ck)) = true) →
      ((∃ tf2, initChecks (some tmpl) ck tf = Except.ok tf2) ↔ (ck = ["input"] ∧ tf = ["context"]))
      ∧ initChecks (some tmpl) ["input"] ["context"] = Except.ok ["input"] := by
  intro tmpl ck tf hns
  constructor
  · constructor
    · rintro ⟨tf2, h⟩
      unfold initChecks at h
      by_cases hleg : (tf.length = 1 ∧ ck.length = 1 ∧ ck.headD "" = "input" ∧ tf.headD "" = "context")
      · obtain ⟨h1, h2, h3, h4⟩ := hleg
        match ck, tf, h1, h2 with
        | [a], [b], _, _ =>
          simp only [List.headD] at h3 h4
          subst h3; subst h4
          exact ⟨rfl, rfl⟩
      · rw [if_neg hleg] at h
        rw [if_neg hns] at h
        exact absurd h (by simp)
    · rintro ⟨hck, htf⟩
      subst hck; subst htf
      exact ⟨["input"], rfl⟩
  · rfl

/-- Claim C10 witness: the legacy configuration itself, a non-subset
configuration for which construction succeeds with the rewritten field. -/
theorem C10_legacy_remap_witness :
    ((∃ tf2, initChecks (some "T") ["input"] ["context"] = Except.ok tf2)
      ↔ ((["input"] : List String) = ["input"] ∧ (["context"] : List String) = ["context"]))
    ∧ initChecks (some "T") ["input"] ["context"] = Except.ok ["input"] :=
  C10_legacy_remap "T" ["input"] ["context"] (by decide)

/-- Splitting the consumption-order allocation amounts: the first
`d mod n` amounts (in the order popped by the loop) are `d div n + 1`, the
remaining `n - d mod n` amounts are `d div n`. -/
theorem popOrder_split (d n : Nat) (h : 1 ≤ n) :
    popOrder d n = List.replicate (d % n) (d / n + 1) ++ List.replicate (n - d % n) (d / n) := by
  have hr : d % n < n := Nat.mod_lt d h
  have hsplit : List.range n = List.range (d % n) ++ (List.range (n - d % n)).map (fun x => d % n + x) := by
    have hn : d % n + (n - d % n) = n := Nat.add_sub_cancel' (le_of_lt hr)
    rw [← List.range_add, hn]
  unfold popOrder truncationLengthList
  rw [List.map_reverse, List.reverse_reverse, hsplit, List.map_append]
  congr 1
  · rw [List.map_congr_left (g := fun _ => d / n + 1), List.map_const', List.length_range]
    intro a ha
    rw [List.mem_range] at ha
    simp [ha]
  · rw [List.map_map, List.map_congr_left (g := fun _ => d / n), List.map_const', List.length_range]
    intro a ha
    have hna : ¬ (d % n + a < d % n) := by omega
    simp [hna]

/-- The allocation list sums exactly to the deficit whenever there is at
least one truncation field. -/
theorem tll_sum (d n : Nat) (h : 1 ≤ n) : (truncationLengthList d n).sum = d := by
  have h1 : (truncationLengthList d n).sum = (popOrder d n).sum := by
    unfold popOrder
    rw [List.sum_reverse]
  rw [h1, popOrder_split d n h]
  rw [List.sum_append, List.sum_replicate, List.sum_replicate, smul_eq_mul, smul_eq_mul]
  have hr : d % n < n := Nat.mod_lt d h
  have hdm := Nat.div_add_mod d n
  have h2 : d % n * (d / n + 1) = d % n * (d / n) + d % n := by ring
  have h3 : (n - d % n) * (d / n) = n * (d / n) - d % n * (d / n) := by
    rw [Nat.sub_mul]
  have h4 : d % n * (d / n) ≤ n * (d / n) := Nat.mul_le_mul_right _ (le_of_lt hr)
  omega

/-- The allocation list has one entry per configured truncation field. -/
theorem tll_length (d n : Nat) : (truncationLengthList d n).length = n := by
  unfold truncationLengthList
  rw [List.length_map, List.length_reverse, List.length_range]

/-- A successful `pop` removes exactly the last element. -/
theorem popLast_ok : ∀ (l l2 : List Nat) (t : Nat), popLast l = Except.ok (t, l2) → l = l2 ++ [t] := by
  intro l
  induction l with
  | nil => intro l2 t h; exact absurd h (by simp [popLast])
  | cons a r ih =>
    intro l2 t h
    cases r with
    | nil =>
      have h0 : (Except.ok ((a : Nat), ([] : List Nat)) : Except PyErr (Nat × List Nat)) = Except.ok (t, l2) := h
      injection h0 with h2
      injection h2 with h3 h4
      subst h3; subst h4
      rfl
    | cons b r2 =>
      unfold popLast at h
      cases hp : popLast (b :: r2) with
      | error e => rw [hp] at h; cases h
      | ok p =>
        obtain ⟨t2, rest⟩ := p
        rw [hp] at h
        injection h with h2
        injection h2 with h3 h4
        subst h3
        subst h4
        have hr := ih rest t2 hp
        rw [hr]
        rfl

/-- A successfully computed slice offset never exceeds the truncation
amount, for any truncation method. -/
theorem sliceOffset_le (m : String) (t off : Nat) (h : sliceOffset m t = Except.ok off) : off ≤ t := by
  unfold sliceOffset at h
  split at h
  · exact absurd h (by simp)
  · split at h
    · injection h with h2; omega
    · split at h
      · injection h with h2; omega
      · exact absurd h (by simp)

/-- Mapping first components over a zip truncates to the length of the
second list. -/
theorem map_fst_zip_take : ∀ (a : List (List Int)) (b : List String),
    ((a.zip b).map Prod.fst) = a.take b.length := by
  intro a
  induction a with
  | nil => intro b; simp
  | cons x a2 ih =>
    intro b
    cases b with
    | nil => simp
    | cons y b2 => simp [ih b2]

/-- When the truncation loop succeeds and the number of matching segments
equals the allocation length, the output token count plus the whole
allocation sum equals the input token count: every allocated amount is
removed exactly once. -/
theorem truncateLoop_ok_sum (cfg : Config) :
    ∀ (pairs : List (List Int × String)) (alloc : List Nat) (out : List (List Int)),
      truncateLoop cfg alloc pairs = Except.ok out →
      pairs.countP (fun p => decide (p.2 ∈ cfg.truncation_fields)) = alloc.length →
      sumLens out + alloc.sum = sumLens (pairs.map Prod.fst) := by
  intro pairs
  induction pairs with
  | nil =>
    intro alloc out h hc
    have h0 : (Except.ok ([] : List (List Int)) : Except PyErr (List (List Int))) = Except.ok out := h
    injection h0 with h2
    subst h2
    have ha : alloc = [] := by
      cases alloc with
      | nil => rfl
      | cons x l => simp at hc
    subst ha
    simp [sumLens]
  | cons p rest ih =>
    intro alloc out h hc
    obtain ⟨ids, key⟩ := p
    by_cases hk : key ∈ cfg.truncation_fields
    · unfold truncateLoop at h
      rw [if_pos hk] at h
      cases hp : popLast alloc with
      | error e => rw [hp] at h; cases h
      | ok q =>
        obtain ⟨t, alloc2⟩ := q
        rw [hp] at h
        dsimp only at h
        by_cases hlen : ids.length < t
        · rw [if_pos hlen] at h; cases h
        · rw [if_neg hlen] at h
          cases hs : sliceOffset cfg.truncation_method t with
          | error e => rw [hs] at h; cases h
          | ok off =>
            rw [hs] at h
            dsimp only at h
            cases hrec : truncateLoop cfg alloc2 rest with
            | error e => rw [hrec] at h; cases h
            | ok rest2 =>
              rw [hrec] at h
              injection h with h2
              subst h2
              have halloc := popLast_ok alloc alloc2 t hp
              have hoff := sliceOffset_le _ _ _ hs
              have hd : decide (key ∈ cfg.truncation_fields) = true := decide_eq_true hk
              have hc2 : rest.countP (fun p => decide (p.2 ∈ cfg.truncation_fields)) = alloc2.length := by
                rw [List.countP_cons] at hc
                simp only [hd, if_true] at hc
                rw [halloc] at hc
                simp at hc
                omega
              have hsum := ih alloc2 rest2 hrec hc2
              have hhead : ((ids.drop off).take (ids.length - t)).length = ids.length - t := by
                rw [List.length_take, List.length_drop]
                omega
              rw [halloc]
              simp only [sumLens, List.map_cons, List.sum_cons, List.sum_append, List.sum_nil] at hsum ⊢
              rw [hhead]
              omega
    · unfold truncateLoop at h
      rw [if_neg hk] at h
      cases hrec : truncateLoop cfg alloc rest with
      | error e => rw [hrec] at h; cases h
      | ok rest2 =>
        rw [hrec] at h
        injection h with h2
        subst h2
        have hd : decide (key ∈ cfg.truncation_fields) = false := decide_eq_false hk
        have hc2 : rest.countP (fun p => decide (p.2 ∈ cfg.truncation_fields)) = alloc.length := by
          rw [List.countP_cons] at hc
          simp [hd] at hc
          omega
        have hsum := ih alloc rest2 hrec hc2
        simp only [sumLens, List.map_cons, List.sum_cons] at hsum ⊢
        omega

/-- When every segment is truncatable and the allocation has one entry per
segment, the k-th output segment length is the k-th input length minus the
k-th amount in consumption order, which is the reverse of the allocation
list. -/
theorem truncateLoop_lengths (cfg : Config) :
    ∀ (pairs : List (List Int × String)) (alloc : List Nat) (out : List (List Int)),
      truncateLoop cfg alloc pairs = Except.ok out →
      (∀ p ∈ pairs, p.2 ∈ cfg.truncation_fields) →
      pairs.length = alloc.length →
      out.map List.length
        = List.zipWith (fun (ids : List Int) t => ids.length - t) (pairs.map Prod.fst) alloc.reverse := by
  intro pairs
  induction pairs with
  | nil =>
    intro alloc out h hall hlen
    have h0 : (Except.ok ([] : List (List Int)) : Except PyErr (List (List Int))) = Except.ok out := h
    injection h0 with h2
    subst h2
    simp
  | cons p rest ih =>
    intro alloc out h hall hlen
    obtain ⟨ids, key⟩ := p
    have hk : key ∈ cfg.truncation_fields := hall (ids, key) (by simp)
    unfold truncateLoop at h
    rw [if_pos hk] at h
    cases hp : popLast alloc with
    | error e => rw [hp] at h; cases h
    | ok q =>
      obtain ⟨t, alloc2⟩ := q
      rw [hp] at h
      dsimp only at h
      by_cases hl : ids.length < t
      · rw [if_pos hl] at h; cases h
      · rw [if_neg hl] at h
        cases hs : sliceOffset cfg.truncation_method t with
        | error e => rw [hs] at h; cases h
        | ok off =>
          rw [hs] at h
          dsimp only at h
          cases hrec : truncateLoop cfg alloc2 rest with
          | error e => rw [hrec] at h; cases h
          | ok rest2 =>
            rw [hrec] at h
            injection h with h2
            subst h2
            have halloc := popLast_ok alloc alloc2 t hp
            have hoff := sliceOffset_le _ _ _ hs
            have hrev : alloc.reverse = t :: alloc2.reverse := by
              rw [halloc]
              simp
            have hlen2 : rest.length = alloc2.length := by
              rw [halloc] at hlen
              simp at hlen
              omega
            have hrec2 := ih alloc2 rest2 hrec (fun p hp2 => hall p (by simp [hp2])) hlen2
            rw [hrev]
            simp only [List.map_cons, List.zipWith_cons_cons]
            rw [hrec2]
            congr 1
            rw [List.length_take, List.length_drop]
            omega

/-- The last element of a nonempty list, as an option and with a default. -/
theorem getLastSome (pids : List (List Int)) (h0 : pids ≠ []) :
    pids.getLast? = some (pids.getLastD []) := by
  cases hp : pids.getLast? with
  | none => exact absurd (List.getLast?_eq_none_iff.mp hp) h0
  | some x => rw [List.getLastD_eq_getLast?, hp]; rfl

/-- Characterization of `_multiple_truncation` on a nonempty segment list:
either the budget fits and the concatenated context ids are returned
unchanged, or the truncation loop runs over the zipped context segments and
pairs, the untouched tail is kept, and the result is flattened; the label is
the last input segment in both cases. -/
theorem multipleTruncation_eq (cfg : Config) (pids : List (List Int)) (pkeys : List String) (h0 : pids ≠ []) :
    multipleTruncation cfg pids pkeys =
      if totalIds cfg pids > cfg.max_seq_length then
        match truncateLoop cfg
            (truncationLengthList (totalIds cfg pids - cfg.max_seq_length) cfg.truncation_fields.length)
            (pids.dropLast.zip pkeys.dropLast) with
        | Except.error e => Except.error e
        | Except.ok tr =>
          Except.ok ((tr ++ pids.dropLast.drop (pids.dropLast.zip pkeys.dropLast).length).flatten,
                     pids.getLastD [])
      else Except.ok (pids.dropLast.flatten, pids.getLastD []) := by
  unfold multipleTruncation
  rw [getLastSome pids h0]
  dsimp only
  by_cases hc : totalIds cfg pids > cfg.max_seq_length
  · rw [if_pos hc, if_pos hc]
    cases htr : truncateLoop cfg
        (truncationLengthList (totalIds cfg pids - cfg.max_seq_length) cfg.truncation_fields.length)
        (pids.dropLast.zip pkeys.dropLast) with
    | error e => rfl
    | ok tr => rfl
  · rw [if_neg hc, if_neg hc]

/-- Token totals are preserved by splitting a segment list at the zip
boundary. -/
theorem sumLens_zip_split (a : List (List Int)) (k : Nat) :
    sumLens (a.take k) + sumLens (a.drop (min a.length k)) = sumLens a := by
  rcases le_total k a.length with hk | hk
  · rw [min_eq_right hk]
    unfold sumLens
    rw [List.map_take, List.map_drop]
    exact List.sum_take_add_sum_drop _ _
  · rw [min_eq_left hk, List.take_of_length_le hk, List.drop_length]
    simp [sumLens]

/-- Claim C2 as amended: for every deficit and at least one truncation
field, the amounts in consumption order sum exactly to the deficit, any two
amounts differ by at most one, and the amounts beginning with `base + 1` go
to the fields appearing earlier in field order (the loop pops the reversed
allocation list from the back); when every segment is truncatable and
matches the field count, the k-th output segment loses exactly the k-th
consumption-order amount. -/
theorem C2_allocation_amended (d n : Nat) (h : 1 ≤ n) :
    (popOrder d n).sum = d
    ∧ (∀ x ∈ popOrder d n, ∀ y ∈ popOrder d n, x ≤ y + 1)
    ∧ popOrder d n = List.replicate (d % n) (d / n + 1) ++ List.replicate (n - d % n) (d / n)
    ∧ ∀ (cfg : Config) (pairs : List (List Int × String)) (out : List (List Int)),
        truncateLoop cfg (truncationLengthList d n) pairs = Except.ok out →
        (∀ p ∈ pairs, p.2 ∈ cfg.truncation_fields) →
        pairs.length = n →
        out.map List.length
          = List.zipWith (fun (ids : List Int) t => ids.length - t) (pairs.map Prod.fst) (popOrder d n) := by
  refine ⟨?_, ?_, popOrder_split d n h, ?_⟩
  · have h1 := tll_sum d n h
    unfold popOrder
    rw [List.sum_reverse]
    exact h1
  · intro x hx y hy
    have hsplit := popOrder_split d n h
    rw [hsplit] at hx hy
    have hval : ∀ z ∈ List.replicate (d % n) (d / n + 1) ++ List.replicate (n - d % n) (d / n),
        z = d / n + 1 ∨ z = d / n := by
      intro z hz
      rcases List.mem_append.mp hz with h1 | h1
      · exact Or.inl (List.eq_of_mem_replicate h1)
      · exact Or.inr (List.eq_of_mem_replicate h1)
    rcases hval x hx with h1 | h1 <;> rcases hval y hy with h2 | h2 <;> omega
  · intro cfg pairs out hok hall hlen
    exact truncateLoop_lengths cfg pairs (truncationLengthList d n) out hok hall
      (by rw [tll_length]; exact hlen)

/-- Claim C2 witness: with deficit three over two fields the consumption
amounts are two then one, summing to three. -/
theorem C2_allocation_amended_witness : (popOrder 3 2).sum = 3 :=
  (C2_allocation_amended 3 2 (by decide)).1

/-- Claim C3 as amended: on a nonempty segment list, the allocator is a
no-op whenever the budget fits, returning exactly the concatenation of the
input segments; and when the budget is exceeded, exactly the deficit is
removed provided every configured truncation field occurs among the context
segment keys (the count of matching segments equals the field count) — the
claim fails without that proviso, because a truncatable field whose segment
was dropped as empty leaves its allocated amounts unpopped. -/
theorem C3_truncation_total_amended (cfg : Config) (pids : List (List Int)) (pkeys : List String)
    (h0 : pids ≠ []) :
    (totalIds cfg pids ≤ cfg.max_seq_length →
      multipleTruncation cfg pids pkeys = Except.ok (pids.dropLast.flatten, pids.getLastD []))
    ∧ (∀ (ctx lbl : List Int),
        cfg.max_seq_length < totalIds cfg pids →
        (pids.dropLast.zip pkeys.dropLast).countP (fun p => decide (p.2 ∈ cfg.truncation_fields))
          = cfg.truncation_fields.length →
        cfg.truncation_fields ≠ [] →
        multipleTruncation cfg pids pkeys = Except.ok (ctx, lbl) →
        ctx.length + (totalIds cfg pids - cfg.max_seq_length) = sumLens pids.dropLast
          ∧ lbl = pids.getLastD []) := by
  constructor
  · intro hle
    rw [multipleTruncation_eq cfg pids pkeys h0, if_neg (not_lt.mpr hle)]
  · intro ctx lbl hgt hcnt hne hok
    rw [multipleTruncation_eq cfg pids pkeys h0, if_pos hgt] at hok
    cases htr : truncateLoop cfg
        (truncationLengthList (totalIds cfg pids - cfg.max_seq_length) cfg.truncation_fields.length)
        (pids.dropLast.zip pkeys.dropLast) with
    | error e => rw [htr] at hok; cases hok
    | ok tr =>
      rw [htr] at hok
      injection hok with h2
      injection h2 with hctx hlbl
      refine ⟨?_, hlbl.symm⟩
      have hn1 : 1 ≤ cfg.truncation_fields.length :=
        List.length_pos.mpr hne
      have hsum := truncateLoop_ok_sum cfg (pids.dropLast.zip pkeys.dropLast)
        (truncationLengthList (totalIds cfg pids - cfg.max_seq_length) cfg.truncation_fields.length)
        tr htr (by rw [tll_length]; exact hcnt)
      have halloc : (truncationLengthList (totalIds cfg pids - cfg.max_seq_length)
          cfg.truncation_fields.length).sum = totalIds cfg pids - cfg.max_seq_length :=
        tll_sum _ _ hn1
      have hfst : ((pids.dropLast.zip pkeys.dropLast).map Prod.fst)
          = pids.dropLast.take pkeys.dropLast.length := map_fst_zip_take _ _
      have hzlen : (pids.dropLast.zip pkeys.dropLast).length
          = min pids.dropLast.length pkeys.dropLast.length := List.length_zip _ _
      have hsplit := sumLens_zip_split pids.dropLast pkeys.dropLast.length
      rw [← hctx]
      have hflat : ((tr ++ pids.dropLast.drop (pids.dropLast.zip pkeys.dropLast).length).flatten).length
          = sumLens tr + sumLens (pids.dropLast.drop (pids.dropLast.zip pkeys.dropLast).length) := by
        rw [List.length_flatten]
        unfold sumLens
        rw [List.map_append, List.sum_append]
      rw [hflat, hzlen]
      rw [hfst] at hsum
      omega

/-- Claim C3 witness: a concrete fitting record on which the allocator is a
no-op. -/
theorem C3_truncation_total_amended_witness :
    multipleTruncation cfgW [[1], [2]] ["a", "b"]
      = Except.ok (([[1], [2]] : List (List Int)).dropLast.flatten,
                   ([[1], [2]] : List (List Int)).getLastD []) :=
  (C3_truncation_total_amended cfgW [[1], [2]] ["a", "b"] (by decide)).1 (by decide)

/-- Bind of a successful `Except` computation. -/
theorem exbind_ok {α β : Type} (a : α) (f : α → Except PyErr β) : (Except.ok a >>= f) = f a := rfl

/-- The final right-clamp of `_process_example` (lines 340-342) bounds the
input length by the maximum sequence length. -/
theorem clamp_le (L : List Int) (m : Nat) : (if L.length > m then L.take m else L).length ≤ m := by
  split
  · rw [List.length_take]
    exact min_le_left _ _
  · rename_i h
    omega

/-- Number of answer-position ones in the unshifted loss mask over a range. -/
theorem maskOnes (asi m : Nat) :
    ((List.range m).map (fun idx => if asi ≤ idx then (1 : ℚ) else 0)).countP
      (fun x => decide (x = 1)) = m - asi := by
  induction m with
  | zero => simp
  | succ m ih =>
    rw [List.range_succ, List.map_append, List.countP_append, ih]
    simp only [List.map_cons, List.map_nil]
    by_cases h : asi ≤ m
    · rw [if_pos h]
      simp only [List.countP_cons, List.countP_nil]
      norm_num
      omega
    · rw [if_neg h]
      simp only [List.countP_cons, List.countP_nil]
      norm_num
      omega

/-- The per-record field lookups of `_process_example` (line 307) succeed
when every context key is present in the record. -/
theorem mapM_pyGet_ok : ∀ (ks : List String) (rec : List (String × String)),
    (∀ k ∈ ks, (List.lookup k rec).isSome = true) →
    ∃ vs, ks.mapM (fun c => do
        let v ← pyGet rec c
        pure (stripSpaces v)) = Except.ok vs := by
  intro ks
  induction ks with
  | nil => intro rec h; exact ⟨[], rfl⟩
  | cons k ks ih =>
    intro rec h
    have hk := h k (by simp)
    cases hl : List.lookup k rec with
    | none => rw [hl] at hk; simp at hk
    | some v =>
      obtain ⟨vs, hvs⟩ := ih rec (fun k2 hk2 => h k2 (by simp [hk2]))
      refine ⟨stripSpaces v :: vs, ?_⟩
      rw [List.mapM_cons]
      have hfk : ((do
          let v2 ← pyGet rec k
          pure (stripSpaces v2)) : Except PyErr String) = Except.ok (stripSpaces v) := by
        unfold pyGet
        rw [hl]
        rfl
      rw [hfk, hvs]
      rfl

/-- Claim C4 as amended: with `answer_only_loss` on, the shifted loss mask
carries exactly `len(inputIds) - max(answerStartIdx, 1)` ones (the claimed
`len - 1 - answerStartIdx` under-counts by one whenever the answer start
index is positive); with it off, the shifted mask is all ones of length
`len(inputIds) - 1`. -/
theorem C4_loss_mask_count_amended (aol : Bool) (asi : Nat) (ids : List Int) :
    (aol = true → onesCount ((buildLossMask aol asi ids).drop 1) = ids.length - max asi 1)
    ∧ (aol = false → (buildLossMask aol asi ids).drop 1 = List.replicate (ids.length - 1) (1 : ℚ)) := by
  constructor
  · intro h
    subst h
    unfold buildLossMask onesCount
    simp only [if_pos]
    cases hn : ids.length with
    | zero => simp
    | succ m =>
      rw [List.range_succ_eq_map]
      simp only [List.map_cons, List.drop_succ_cons, List.drop_zero, List.map_map]
      have hfun : ((fun idx => if asi ≤ idx then (1 : ℚ) else 0) ∘ Nat.succ)
          = (fun idx => if asi - 1 ≤ idx then (1 : ℚ) else 0) := by
        funext i
        simp only [Function.comp]
        by_cases h2 : asi ≤ Nat.succ i
        · rw [if_pos h2, if_pos (by omega)]
        · rw [if_neg h2, if_neg (by omega)]
      rw [hfun, maskOnes]
      omega
  · intro h
    subst h
    unfold buildLossMask
    simp only [Bool.false_eq_true, if_false]
    rw [List.drop_replicate]

/-- Claim C4 witness: a four-token input with answer start two keeps two
ones after the shift. -/
theorem C4_loss_mask_count_amended_witness :
    onesCount ((buildLossMask true 2 [5, 6, 7, 8]).drop 1) = ([5, 6, 7, 8] : List Int).length - max 2 1 :=
  (C4_loss_mask_count_amended true 2 [5, 6, 7, 8]).1 rfl

/-- Claim C5 as amended: whenever `add_eos` is set, the one-token EOS
allowance is counted in the truncation budget regardless of the requested
generation length (line 266 adds it unconditionally): with the budget sized
to fit the context plus the generation allowance exactly, one context token
is truncated for every value of `tokens_to_generate`.  The EOS append at
line 337 is likewise guarded only by `add_eos`, though it is unreachable
behind the `NameError` of line 334. -/
theorem C5_eos_allowance_amended (ttg : Nat) :
    multipleTruncation (cfg5A ttg) [[1, 2, 3, 4, 5], [9]] ["a", "x"] = Except.ok ([1, 2, 3, 4], [9]) := by
  have h0 : ([[1, 2, 3, 4, 5], [9]] : List (List Int)) ≠ [] := by simp
  rw [multipleTruncation_eq _ _ _ h0]
  have hgt : totalIds (cfg5A ttg) [[1, 2, 3, 4, 5], [9]] > (cfg5A ttg).max_seq_length := by
    simp [totalIds, cfg5A, cfg2, sumLens, b2n]
  rw [if_pos hgt]
  have hd : totalIds (cfg5A ttg) [[1, 2, 3, 4, 5], [9]] - (cfg5A ttg).max_seq_length = 1 := by
    simp [totalIds, cfg5A, cfg2, sumLens, b2n]
  rw [hd]
  have h1 : truncationLengthList 1 (cfg5A ttg).truncation_fields.length = [1] := by
    norm_num [cfg5A, cfg2]
    decide
  rw [h1]
  have h2 : (([[1, 2, 3, 4, 5], [9]] : List (List Int)).dropLast.zip (["a", "x"].dropLast))
      = [([1, 2, 3, 4, 5], "a")] := rfl
  rw [h2]
  have h3 : truncateLoop (cfg5A ttg) [1] [([1, 2, 3, 4, 5], "a")] = Except.ok [[1, 2, 3, 4]] := rfl
  rw [h3]
  rfl

/-- Claim C6 as amended: no example is ever returned — for every
configuration and record whose context and label fields are present,
`_process_example` raises `AttributeError` on the unbound
`self.context_key`; the assembly of lines 314-342 does keep
`context_length` equal to the context id count and does clamp the input to
`max_seq_length`, but the clamp leaves `answer_start_idx` unadjusted, so on
the slip-repaired pipeline the concrete record `ex6` yields an example
whose answer start index of five exceeds its clamped input length of
three. -/
theorem C6_invariants_amended :
    (∀ (cfg : Config) (tok : Tokenizer) (rec : List (String × String)),
      (∀ k ∈ cfg.context_keys, (List.lookup k rec).isSome = true) →
      (List.lookup cfg.label_key rec).isSome = true →
      processExample cfg tok rec = Except.error (PyErr.attributeError "context_key"))
    ∧ (∀ (cfg : Config) (eosId bosId : Int) (ctx0 answer_ids label_ids : List Int),
        (assemble cfg eosId bosId ctx0 answer_ids label_ids).context_length
          = (assemble cfg eosId bosId ctx0 answer_ids label_ids).context_ids.length
        ∧ (assemble cfg eosId bosId ctx0 answer_ids label_ids).input_ids.length ≤ cfg.max_seq_length)
    ∧ (∃ p : Processed, processExampleIntended cfg6 charTok ex6 = Except.ok p
        ∧ p.input_ids.length < p.answer_start_idx
        ∧ p.context_length = p.context_ids.length
        ∧ p.input_ids.length ≤ cfg6.max_seq_length) := by
  refine ⟨?_, ?_, ?_⟩
  · intro cfg tok rec hks hlk
    obtain ⟨vs, hvs⟩ := mapM_pyGet_ok cfg.context_keys rec hks
    unfold processExample
    rw [hvs, exbind_ok]
    cases hl : List.lookup cfg.label_key rec with
    | none => rw [hl] at hlk; simp at hlk
    | some v =>
      have hlab : pyGet rec cfg.label_key = Except.ok v := by
        unfold pyGet
        rw [hl]
      rw [hlab, exbind_ok]
      rfl
  · intro cfg e b ctx ans lbl
    constructor
    · rfl
    · unfold assemble
      dsimp only
      exact clamp_le _ _
  · exact ⟨proc6, by decide, by decide, by decide, by decide⟩

/-- Claim C6 witness: a concrete record with all fields present on which
processing raises the `AttributeError`. -/
theorem C6_invariants_amended_witness :
    processExample cfgW charTok [("a", "v"), ("x", "w")] = Except.error (PyErr.attributeError "context_key") :=
  C6_invariants_amended.1 cfgW charTok [("a", "v"), ("x", "w")] (by decide) (by decide)

/-- Claim C8 as amended: of the three faults, only a truncation-fields set
that is not a subset of the context keys (outside the legacy remapping)
raises at construction; a missing label placeholder and an unrecognized
truncation method pass construction and surface per record — the former in
the template splitter (whose own check is preempted by the line-200
`AttributeError`), the latter inside `_multiple_truncation` when an amount
is applied to a truncatable segment. -/
theorem C8_validation_site_amended :
    ∀ (tmpl : String) (ck tf : List String),
      ¬ (tf.all (fun f => decide (f ∈ ck)) = true) →
      ¬ (ck = ["input"] ∧ tf = ["context"]) →
      (initChecks (some tmpl) ck tf
          = Except.error (PyErr.assertionError "truncation_fields must in context_keys")
        ∧ initChecks (some cfg8.prompt_template) cfg8.context_keys cfg8.truncation_fields = Except.ok ["x"]
        ∧ multipleTruncation cfg8 [[1, 2], [9]] ["x", "lab"] = Except.error (PyErr.valueError "middle")
        ∧ separateTemplateCore cfg8.context_keys cfg8.label_key cfg8.prompt_template false ["v"] "w"
          = Except.error (PyErr.assertionError "label placeholder must in prompt_template")
        ∧ separateTemplate cfg8 false ["v"] "w" = Except.error (PyErr.attributeError "context_key")) := by
  intro tmpl ck tf hns hnl
  refine ⟨?_, by decide, by decide, by decide, rfl⟩
  unfold initChecks
  have hleg : ¬ (tf.length = 1 ∧ ck.length = 1 ∧ ck.headD "" = "input" ∧ tf.headD "" = "context") := by
    rintro ⟨h1, h2, h3, h4⟩
    apply hnl
    match ck, tf, h1, h2 with
    | [a], [b], _, _ =>
      simp only [List.headD] at h3 h4
      subst h3; subst h4
      exact ⟨rfl, rfl⟩
  rw [if_neg hleg, if_neg hns]

/-- Claim C8 witness: a concrete non-subset, non-legacy configuration on
which construction fails with the subset assertion. -/
theorem C8_validation_site_amended_witness :
    initChecks (some "t") ["x"] ["y"]
      = Except.error (PyErr.assertionError "truncation_fields must in context_keys") :=
  (C8_validation_site_amended "t" ["x"] ["y"] (by decide) (by decide)).1

/-- Claim C5 witness: the concrete generation length seven also gets the
context truncated by the EOS allowance. -/
theorem C5_eos_allowance_amended_witness :
    multipleTruncation (cfg5A 7) [[1, 2, 3, 4, 5], [9]] ["a", "x"] = Except.ok ([1, 2, 3, 4], [9]) :=
  C5_eos_allowance_amended 7
